import Mathlib

/-!
A shallow embedding of the terraform-provider-weka reconciliation code
(package `internal/provider`), together with theorems checking the
natural-language specification against it.

Modelling conventions:
- Go structs decoded from JSON become Lean structures holding only the
  fields the embedded functions read.
- `json.Unmarshal` is abstracted as a parse function or an `Option`-valued
  argument; `json.Marshal` of a request body is modelled by keeping the
  body as an association list of key/value pairs.
- The HTTP client is an oracle `Call → Except WekaError String` standing
  for `WekaClient.makeRequest` composed with the network; reconcilers
  record every call they issue, in order, in a trace list.
- `schema.ResourceData` becomes an explicit state record per resource;
  `d.Set` is a functional record update, `d.SetId` updates the `id`
  field, `d.HasChange` flags arrive in a change-set record, and
  `d.Partial(b)` sets the `multiCallMode` flag of the bucket state.
-/

namespace Weka

/-- JSON scalar values appearing in request bodies built by the provider. -/
inductive JValue where
  | str (s : String)
  | int (n : Int)
  | bool (b : Bool)
deriving Repr, DecidableEq

/-- HTTP method of a request built with `http.NewRequest`. -/
inductive Method where
  | GET
  | POST
  | PUT
  | DELETE
deriving Repr, DecidableEq

/-- One HTTP call issued through `WekaClient.makeRequest`: method, path
(as passed to `makeRestEndpointURL`), and optional JSON body, `none`
modelling a `nil` body reader. -/
structure Call where
  method : Method
  path : String
  body : Option (List (String × JValue))
deriving Repr, DecidableEq

/-- The `data` part of `WekaErrorResponse` (provider.go). -/
structure WekaErrorData where
  error : String
  reason : String
deriving Repr, DecidableEq

/-- `WekaErrorResponse` (provider.go): the generic error envelope
`\x7bmessage, data:\x7berror, reason\x7d\x7d`. -/
structure WekaErrorResponse where
  message : String
  data : WekaErrorData
deriving Repr, DecidableEq

/-- Typed rendering of the `error` values produced by `makeRequest`
(provider.go, `fmt.Errorf` calls) plus a constructor for errors coming
from outside `makeRequest` (network failures, unmarshal failures). -/
inductive WekaError where
  | remoteRejected (message : String)
  | remoteHTTPError (status : Nat) (message : Option String)
  | other (message : String)
deriving Repr, DecidableEq

/-- The text of the Go error value, as produced by `fmt.Errorf`. -/
def WekaError.render : WekaError → String
  | .remoteRejected m => "Error from Weka API: " ++ m
  | .remoteHTTPError s none => "Non-200 status from Weka API: " ++ toString s
  | .remoteHTTPError s (some m) =>
      "Non-200 status from Weka API: " ++ toString s ++ ", message: " ++ m
  | .other m => m

/-- Severity of a `diag.Diagnostic`. -/
inductive Severity where
  | error
  | warning
deriving Repr, DecidableEq

/-- `diag.Diagnostic` from the terraform SDK, as the provider builds it. -/
structure Diagnostic where
  severity : Severity
  summary : String
  detail : String
deriving Repr, DecidableEq

/-- `diag.FromErr`: one error diagnostic carrying the error text. -/
def diagFromErr (e : WekaError) : Diagnostic :=
  ⟨Severity.error, e.render, ""⟩

/-- Diagnostic produced when `json.Unmarshal` fails in a reconciler. -/
def diagUnmarshal : Diagnostic :=
  diagFromErr (WekaError.other "json unmarshal error")

/-- `WekaClient.makeRequest` (provider.go lines 121-175), response
classification only.  `status` is the HTTP status code of the response,
`parsed` is the result of `json.Unmarshal` of the body into
`WekaErrorResponse` (`none` when the body does not parse), `body` is the
raw body.  The Go code first inspects the parsed envelope; a non-empty
`data.error` or `data.reason` fails the call with the envelope message
regardless of status; then a non-200 status fails the call, carrying the
envelope message when a non-empty one was parsed; otherwise the raw body
is returned. -/
def makeRequest (status : Nat) (parsed : Option WekaErrorResponse)
    (body : String) : Except WekaError String :=
  let message := match parsed with
    | some wer => wer.message
    | none => ""
  let envelopeError := match parsed with
    | some wer => wer.data.error != "" || wer.data.reason != ""
    | none => false
  if envelopeError then
    Except.error (WekaError.remoteRejected message)
  else if status != 200 then
    if message = "" then
      Except.error (WekaError.remoteHTTPError status none)
    else
      Except.error (WekaError.remoteHTTPError status (some message))
  else
    Except.ok body

/-! ## Object-store buckets (resource_s3_bucket.go) -/

/-- State of a `weka_s3_bucket` resource (`schema.ResourceData`).
`multiCallMode` models the flag toggled by `d.Partial`: true while a
multi-sub-call update is in flight. -/
structure BucketState where
  id : String
  bucket_name : String
  anonymous_policy_name : String
  hard_quota : String
  existing_path : String
  fs_uid : String
  last_updated : String
  multiCallMode : Bool
deriving Repr, DecidableEq

/-- `d.HasChange` answers for the fields `resourceS3BucketUpdate` asks
about. -/
structure BucketChangeSet where
  hard_quota : Bool
  anonymous_policy_name : Bool
deriving Repr, DecidableEq

/-- One element of `WekaS3Bucket.Data.Buckets` (resource_s3_bucket.go). -/
structure WekaS3BucketRecord where
  name : String
  hard_limit_bytes : Int
  path : String
  used_bytes : Int
  fs : String
deriving Repr, DecidableEq

/-- Second half of `resourceS3BucketUpdate`: the `anonymous_policy_name`
block and the closing `d.Partial(false)` / `last_updated` writes.  The
trace pairs each issued call with the value of the `d.Partial` flag at
issue time. -/
def s3BucketUpdatePolicy (d : BucketState) (ch : BucketChangeSet)
    (remote : Call → Except WekaError String) (now : String)
    (trace : List (Call × Bool)) :
    BucketState × List (Call × Bool) × List Diagnostic :=
  if ch.anonymous_policy_name then
    let updateData := [("bucket_policy", JValue.str d.anonymous_policy_name)]
    let req : Call := ⟨Method.PUT, "/s3/buckets/" ++ d.id ++ "/policy", some updateData⟩
    match remote req with
    | Except.error e => (d, trace ++ [(req, d.multiCallMode)], [diagFromErr e])
    | Except.ok _ =>
        ({ d with multiCallMode := false, last_updated := now },
         trace ++ [(req, d.multiCallMode)], [])
  else
    ({ d with multiCallMode := false, last_updated := now }, trace, [])

/-- `resourceS3BucketUpdate` (resource_s3_bucket.go lines 166-222):
enables partial mode, issues the quota PUT when `hard_quota` changed,
then the policy PUT when `anonymous_policy_name` changed, then disables
partial mode and stamps `last_updated`. -/
def resourceS3BucketUpdate (d : BucketState) (ch : BucketChangeSet)
    (remote : Call → Except WekaError String) (now : String) :
    BucketState × List (Call × Bool) × List Diagnostic :=
  let d := { d with multiCallMode := true }
  if ch.hard_quota then
    let updateData := [("hard_quota", JValue.str d.hard_quota)]
    let req : Call := ⟨Method.PUT, "/s3/buckets/" ++ d.id ++ "/quota", some updateData⟩
    match remote req with
    | Except.error e => (d, [(req, d.multiCallMode)], [diagFromErr e])
    | Except.ok _ => s3BucketUpdatePolicy d ch remote now [(req, d.multiCallMode)]
  else
    s3BucketUpdatePolicy d ch remote now []

/-- `resourceS3BucketRead` (resource_s3_bucket.go lines 104-141): one GET
of the collection, then a linear scan for a bucket whose name equals the
stored id; no match clears the id. -/
def resourceS3BucketRead (d : BucketState)
    (remote : Call → Except WekaError String)
    (parseBuckets : String → Option (List WekaS3BucketRecord)) :
    BucketState × List Call × List Diagnostic :=
  let req : Call := ⟨Method.GET, "/s3/buckets", none⟩
  match remote req with
  | Except.error e => (d, [req], [diagFromErr e])
  | Except.ok body =>
    match parseBuckets body with
    | none => (d, [req], [diagUnmarshal])
    | some buckets =>
      match buckets.find? (fun b => b.name == d.id) with
      | some _ => (d, [req], [])
      | none => ({ d with id := "" }, [req], [])

/-! ## Filesystems (resource_filesystem.go, given as src/unnamed/part_004) -/

/-- `OurGb` (part_004 line 109): the fixed gigabyte factor. -/
def OurGb : Int := 1000000000

/-- State of a `weka_filesystem` resource. -/
structure FilesystemState where
  id : String
  name : String
  group_name : String
  total_capacity_gb : Int
  obs_name : String
  ssd_capacity_gb : Int
  encrypted : Bool
  auth_required : Bool
  allow_no_kms : Bool
  tiered : Bool
  last_updated : String
deriving Repr, DecidableEq

/-- `d.HasChange` answers for the fields `resourceFilesystemUpdate` asks
about. -/
structure FilesystemChangeSet where
  name : Bool
  tiered : Bool
  obs_name : Bool
  total_capacity_gb : Bool
  auth_required : Bool
  ssd_capacity_gb : Bool
deriving Repr, DecidableEq

/-- One element of `WekaFilesystem.Data.ObsBuckets` (part_004). -/
structure ObsBucket where
  uid : String
  state : String
  obsId : String
  mode : String
  name : String
deriving Repr, DecidableEq

/-- The fields of `WekaFilesystem.Data` (part_004) that the embedded
functions read; the remaining response fields are never consulted by the
provider and are omitted. -/
structure WekaFilesystemData where
  uid : String
  used_ssd : Int
  available_ssd : Int
  available_total : Int
  used_total : Int
  is_encrypted : Bool
  auth_required : Bool
  group_name : String
  obs_buckets : List ObsBucket
deriving Repr, DecidableEq

/-- `extractFilesystemJsonData` (part_004 lines 111-143).  `parsed` is
the `json.Unmarshal` result.  Returns the state after all `d.Set` calls
that executed, together with the error value, mirroring that the Go
function mutates `d` in place before a mid-function error return. -/
def extractFilesystemJsonData (parsed : Option WekaFilesystemData)
    (d : FilesystemState) : FilesystemState × Option String :=
  match parsed with
  | none => (d, some "json unmarshal error")
  | some kms =>
    let d := { d with id := kms.uid }
    let ssd_capacity := Int.tdiv (kms.used_ssd + kms.available_ssd) OurGb
    let total_capacity := Int.tdiv (kms.available_total + kms.used_total) OurGb
    let step : FilesystemState × Option String :=
      if kms.obs_buckets.length > 0 then
        let d := { d with ssd_capacity_gb := ssd_capacity, tiered := true }
        if kms.obs_buckets.length > 1 then
          (d, some "Tiered filesystems with more than one OBS bucket currently not supported.")
        else
          match kms.obs_buckets with
          | b :: _ => ({ d with obs_name := b.name }, none)
          | [] => (d, none)
      else
        ({ d with tiered := false }, none)
    match step with
    | (d, some e) => (d, some e)
    | (d, none) =>
      ({ d with total_capacity_gb := total_capacity,
                encrypted := kms.is_encrypted,
                auth_required := kms.auth_required,
                group_name := kms.group_name }, none)

/-- `resourceFilesystemUpdate` (part_004 lines 191-250): a tiered or
obs_name change errors out before the PUT; otherwise one PUT to
`fileSystems/\x7bid\x7d` carries the changed fields, the response is fed
through `extractFilesystemJsonData` (its error ignored, as in the
source), and `last_updated` is stamped. -/
def resourceFilesystemUpdate (d : FilesystemState) (ch : FilesystemChangeSet)
    (remote : Call → Except WekaError String)
    (parseFs : String → Option WekaFilesystemData) (now : String) :
    FilesystemState × List Call × List Diagnostic :=
  let updateData1 := if ch.name then [("new_name", JValue.str d.name)] else []
  if ch.tiered then
    (d, [], [⟨Severity.error, "cannot switch type of filesystem from tiered/non-tiered", ""⟩])
  else if ch.obs_name then
    (d, [], [⟨Severity.error, "Cannot currently change the OBS name", ""⟩])
  else
    let updateData := updateData1
      ++ (if ch.total_capacity_gb then
            [("total_capacity", JValue.int (d.total_capacity_gb * OurGb))] else [])
      ++ (if ch.auth_required then
            [("auth_required", JValue.bool d.auth_required)] else [])
      ++ (if d.tiered && ch.ssd_capacity_gb then
            [("ssd_capacity", JValue.int (d.total_capacity_gb * OurGb))] else [])
    let req : Call := ⟨Method.PUT, "fileSystems/" ++ d.id, some updateData⟩
    match remote req with
    | Except.error e => (d, [req], [diagFromErr e])
    | Except.ok body =>
      let d2 := (extractFilesystemJsonData (parseFs body) d).1
      ({ d2 with last_updated := now }, [req], [])

/-- `resourceFilesystemCreate` (part_004 lines 252-298): one POST to
`fileSystems` whose body serializes capacities multiplied by `OurGb`; on
success the returned uid becomes the id. -/
def resourceFilesystemCreate (d : FilesystemState)
    (remote : Call → Except WekaError String)
    (parseFs : String → Option WekaFilesystemData) :
    FilesystemState × List Call × List Diagnostic :=
  let createData := [("name", JValue.str d.name),
                     ("group_name", JValue.str d.group_name),
                     ("total_capacity", JValue.int (d.total_capacity_gb * OurGb)),
                     ("encrypted", JValue.bool d.encrypted),
                     ("auth_required", JValue.bool d.auth_required),
                     ("allow_no_kms", JValue.bool d.allow_no_kms)]
  let obs_name := d.obs_name
  let ssd_capacity_gb := d.ssd_capacity_gb
  let tiered := d.tiered
  let createData := if tiered then
      createData ++ [("obs_name", JValue.str obs_name),
                     ("ssd_capacity", JValue.int (ssd_capacity_gb * OurGb))]
    else createData
  let req : Call := ⟨Method.POST, "fileSystems", some createData⟩
  match remote req with
  | Except.error e => (d, [req], [diagFromErr e])
  | Except.ok body =>
    match parseFs body with
    | none => (d, [req], [diagUnmarshal])
    | some kms => ({ d with id := kms.uid }, [req], [])

/-! ## User-policy bindings (resource_user_policy.go) -/

/-- State of a `weka_user_s3_policy` resource. -/
structure UserPolicyState where
  id : String
  username : String
  s3_policy_name : String
  last_updated : String
deriving Repr, DecidableEq

/-- `resourceUserPolicyRead` (resource_user_policy.go lines 46-85): one
GET of `/s3/userPolicies`; `parsePolicies` is the `json.Unmarshal` of the
body, giving the `data.users` map as an association list.  The source
then looks up the literal string "username" as the map key (not the
declared username field). -/
def resourceUserPolicyRead (d : UserPolicyState)
    (remote : Call → Except WekaError String)
    (parsePolicies : String → Option (List (String × String))) :
    UserPolicyState × List Call × List Diagnostic :=
  let req : Call := ⟨Method.GET, "/s3/userPolicies", none⟩
  match remote req with
  | Except.error e => (d, [req], [diagFromErr e])
  | Except.ok body =>
    match parsePolicies body with
    | none => (d, [req], [diagUnmarshal])
    | some users =>
      let current_policy := d.s3_policy_name
      match users.lookup "username" with
      | some policy =>
        if current_policy == policy then (d, [req], [])
        else ({ d with s3_policy_name := policy, id := "" }, [req], [])
      | none => ({ d with id := "" }, [req], [])

/-! ## Session construction (provider.go, providerConfigure) -/

/-- `WekaAuthResponse.Data` (provider.go). -/
structure WekaAuthData where
  access_token : String
  token_type : String
  expires_in : Int
  refresh_token : String
deriving Repr, DecidableEq

/-- The `WekaClient` fields built by `providerConfigure`. -/
structure WekaClientModel where
  endPoint : String
  org : String
  authResponse : WekaAuthData
deriving Repr, DecidableEq

/-- The HTTP response of the login POST: status code and raw body. -/
structure LoginReply where
  statusCode : Nat
  body : String
deriving Repr, DecidableEq

/-- Result of `providerConfigure`: the client (or `none` with error
diagnostics) and whether the login POST was attempted. -/
structure ConfigureResult where
  client : Option WekaClientModel
  diags : List Diagnostic
  loginAttempted : Bool
deriving Repr, DecidableEq

/-- Models `strings.ToLower` as character-wise ASCII case folding, which
is what the comparison against "bearer" needs. -/
def toLowerModel (s : String) : String :=
  String.mk (s.data.map Char.toLower)

/-- `providerConfigure` (provider.go lines 177-267).  `parseRequestURI`
models `url.ParseRequestURI` (`none` on a malformed endpoint, otherwise
the parsed base URL rendered back to a string); `post` models the
`http.Post` of the credentials to the login URL; `parseAuth` models the
`json.Unmarshal` of the login body into `WekaAuthResponse`.  All four
credentials non-empty is checked first; only then is the login POST
issued; a non-200 reply or a token type other than "bearer"
(case-insensitively) is an error. -/
def providerConfigure (username password org endpoint : String)
    (parseRequestURI : String → Option String)
    (post : Except String LoginReply)
    (parseAuth : String → Option WekaAuthData) : ConfigureResult :=
  if (username != "") && (password != "") && (org != "") && (endpoint != "") then
    match parseRequestURI endpoint with
    | none => ⟨none, [diagFromErr (WekaError.other "invalid endpoint URI")], false⟩
    | some u =>
      match post with
      | Except.error e => ⟨none, [diagFromErr (WekaError.other e)], true⟩
      | Except.ok resp =>
        if resp.statusCode != 200 then
          ⟨none, [⟨Severity.error,
                   "non-200 response from Weka API path " ++ u ++ "/login",
                   resp.body⟩], true⟩
        else
          match parseAuth resp.body with
          | none => ⟨none, [diagUnmarshal], true⟩
          | some wr =>
            if toLowerModel wr.token_type != "bearer" then
              ⟨none, [⟨Severity.error,
                       "Unknown token type from Weka API (" ++ wr.token_type
                         ++ ") path " ++ u ++ "/login",
                       resp.body⟩], true⟩
            else
              ⟨some ⟨u, org, wr⟩, [], true⟩
  else
    ⟨none, [⟨Severity.error, "Unable to create Weka client.",
             "Missing required parameters to create and authenticate to Weka."⟩],
     false⟩

/-! ## Theorems -/

/-- C1: transport classification is structure-first.  If the body parsed
as the error envelope and `data.error` or `data.reason` is non-empty, the
call fails with the envelope message whatever the status (including 200);
otherwise a non-200 status fails with the status code, carrying the
envelope message when a non-empty one was parsed and no message
otherwise; otherwise the raw body is the success payload. -/
theorem makeRequest_classification
    (status : Nat) (parsed : Option WekaErrorResponse) (body : String) :
    (∀ wer, parsed = some wer → (wer.data.error ≠ "" ∨ wer.data.reason ≠ "") →
      makeRequest status parsed body =
        Except.error (WekaError.remoteRejected wer.message)) ∧
    (∀ wer, parsed = some wer → wer.data.error = "" → wer.data.reason = "" →
      status ≠ 200 → wer.message ≠ "" →
      makeRequest status parsed body =
        Except.error (WekaError.remoteHTTPError status (some wer.message))) ∧
    (∀ wer, parsed = some wer → wer.data.error = "" → wer.data.reason = "" →
      status ≠ 200 → wer.message = "" →
      makeRequest status parsed body =
        Except.error (WekaError.remoteHTTPError status none)) ∧
    (parsed = none → status ≠ 200 →
      makeRequest status parsed body =
        Except.error (WekaError.remoteHTTPError status none)) ∧
    (∀ wer, parsed = some wer → wer.data.error = "" → wer.data.reason = "" →
      status = 200 →
      makeRequest status parsed body = Except.ok body) ∧
    (parsed = none → status = 200 →
      makeRequest status parsed body = Except.ok body) := by
  refine ⟨?_, ?_, ?_, ?_, ?_, ?_⟩
  · rintro wer rfl herr
    simp only [makeRequest]
    have : (wer.data.error != "" || wer.data.reason != "") = true := by
      rcases herr with h | h <;> simp [h, bne_iff_ne]
    simp [this]
  · rintro wer rfl he hr hs hm
    simp [makeRequest, he, hr, hs, hm, bne_iff_ne]
  · rintro wer rfl he hr hs hm
    simp [makeRequest, he, hr, hs, hm, bne_iff_ne]
  · rintro rfl hs
    simp [makeRequest, hs, bne_iff_ne]
  · rintro wer rfl he hr hs
    simp [makeRequest, he, hr, hs]
  · rintro rfl hs
    simp [makeRequest, hs]

/-- Witness for C1: concrete instances of each classification branch,
obtained from `makeRequest_classification`. -/
theorem makeRequest_classification_witness :
    makeRequest 200 (some ⟨"x", ⟨"bad", ""⟩⟩) "b" =
      Except.error (WekaError.remoteRejected "x") ∧
    makeRequest 404 (some ⟨"gone", ⟨"", "missing"⟩⟩) "b" =
      Except.error (WekaError.remoteRejected "gone") ∧
    makeRequest 500 (some ⟨"oops", ⟨"", ""⟩⟩) "b" =
      Except.error (WekaError.remoteHTTPError 500 (some "oops")) ∧
    makeRequest 500 none "garbage" =
      Except.error (WekaError.remoteHTTPError 500 none) ∧
    makeRequest 200 (some ⟨"", ⟨"", ""⟩⟩) "payload" = Except.ok "payload" ∧
    makeRequest 200 none "payload" = Except.ok "payload" := by
  refine ⟨?_, ?_, ?_, ?_, ?_, ?_⟩
  · exact (makeRequest_classification 200 (some ⟨"x", ⟨"bad", ""⟩⟩) "b").1
      ⟨"x", ⟨"bad", ""⟩⟩ rfl (Or.inl (by decide))
  · exact (makeRequest_classification 404 (some ⟨"gone", ⟨"", "missing"⟩⟩) "b").1
      ⟨"gone", ⟨"", "missing"⟩⟩ rfl (Or.inr (by decide))
  · exact (makeRequest_classification 500 (some ⟨"oops", ⟨"", ""⟩⟩) "b").2.1
      ⟨"oops", ⟨"", ""⟩⟩ rfl rfl rfl (by decide) (by decide)
  · exact (makeRequest_classification 500 none "garbage").2.2.2.1 rfl (by decide)
  · exact (makeRequest_classification 200 (some ⟨"", ⟨"", ""⟩⟩) "payload").2.2.2.2.1
      ⟨"", ⟨"", ""⟩⟩ rfl rfl rfl rfl
  · exact (makeRequest_classification 200 none "payload").2.2.2.2.2 rfl rfl

/-- C2: with both `hard_quota` and `anonymous_policy_name` changed, the
update issues the quota PUT then the policy PUT, both while partial mode
is on (it is enabled before the first call); a quota failure stops before
the policy PUT, returns the quota error and leaves partial mode on, so
the quota sub-change stays recorded as committed; double success commits
(partial mode off) and stamps `last_updated`. -/
theorem s3BucketUpdate_two_puts (d : BucketState) (ch : BucketChangeSet)
    (remote : Call → Except WekaError String) (now : String)
    (hq : ch.hard_quota = true) (hp : ch.anonymous_policy_name = true) :
    (∀ e, remote ⟨Method.PUT, "/s3/buckets/" ++ d.id ++ "/quota",
        some [("hard_quota", JValue.str d.hard_quota)]⟩ = Except.error e →
      resourceS3BucketUpdate d ch remote now =
        ({ d with multiCallMode := true },
         [(⟨Method.PUT, "/s3/buckets/" ++ d.id ++ "/quota",
            some [("hard_quota", JValue.str d.hard_quota)]⟩, true)],
         [diagFromErr e])) ∧
    (∀ s t, remote ⟨Method.PUT, "/s3/buckets/" ++ d.id ++ "/quota",
        some [("hard_quota", JValue.str d.hard_quota)]⟩ = Except.ok s →
      remote ⟨Method.PUT, "/s3/buckets/" ++ d.id ++ "/policy",
        some [("bucket_policy", JValue.str d.anonymous_policy_name)]⟩ = Except.ok t →
      resourceS3BucketUpdate d ch remote now =
        ({ d with multiCallMode := false, last_updated := now },
         [(⟨Method.PUT, "/s3/buckets/" ++ d.id ++ "/quota",
            some [("hard_quota", JValue.str d.hard_quota)]⟩, true),
          (⟨Method.PUT, "/s3/buckets/" ++ d.id ++ "/policy",
            some [("bucket_policy", JValue.str d.anonymous_policy_name)]⟩, true)],
         [])) := by
  constructor
  · intro e he
    simp [resourceS3BucketUpdate, hq, he]
  · intro s t hs ht
    simp [resourceS3BucketUpdate, s3BucketUpdatePolicy, hq, hp, hs, ht]

/-- Witness for C2: a concrete bucket, one remote that rejects the quota
PUT and one that accepts both PUTs, pushed through
`s3BucketUpdate_two_puts`. -/
theorem s3BucketUpdate_two_puts_witness :
    (resourceS3BucketUpdate
        ⟨"b1", "b1", "public", "2GB", "", "fs1", "", false⟩ ⟨true, true⟩
        (fun _ => Except.error (WekaError.remoteRejected "boom")) "t" =
      (⟨"b1", "b1", "public", "2GB", "", "fs1", "", true⟩,
       [(⟨Method.PUT, "/s3/buckets/b1/quota",
          some [("hard_quota", JValue.str "2GB")]⟩, true)],
       [diagFromErr (WekaError.remoteRejected "boom")])) ∧
    (resourceS3BucketUpdate
        ⟨"b1", "b1", "public", "2GB", "", "fs1", "", false⟩ ⟨true, true⟩
        (fun _ => Except.ok "") "t" =
      (⟨"b1", "b1", "public", "2GB", "", "fs1", "t", false⟩,
       [(⟨Method.PUT, "/s3/buckets/b1/quota",
          some [("hard_quota", JValue.str "2GB")]⟩, true),
        (⟨Method.PUT, "/s3/buckets/b1/policy",
          some [("bucket_policy", JValue.str "public")]⟩, true)],
       [])) := by
  constructor
  · exact (s3BucketUpdate_two_puts
      ⟨"b1", "b1", "public", "2GB", "", "fs1", "", false⟩ ⟨true, true⟩
      (fun _ => Except.error (WekaError.remoteRejected "boom")) "t" rfl rfl).1
      (WekaError.remoteRejected "boom") rfl
  · exact (s3BucketUpdate_two_puts
      ⟨"b1", "b1", "public", "2GB", "", "fs1", "", false⟩ ⟨true, true⟩
      (fun _ => Except.ok "") "t" rfl rfl).2 "" "" rfl rfl

/-! ## Users (resource_user.go) -/

/-- State of a `weka_user` resource. -/
structure UserState where
  id : String
  username : String
  password : String
  role : String
  posix_uid : Int
  posix_gid : Int
  last_updated : String
deriving Repr, DecidableEq

/-- `d.HasChange` answers for the fields `resourceUserUpdate` asks about. -/
structure UserChangeSet where
  username : Bool
  password : Bool
  role : Bool
  posix_uid : Bool
  posix_gid : Bool
deriving Repr, DecidableEq

/-- One element of `WekaGetUsers.Data` (resource_user.go). -/
structure WekaGetUsersRecord where
  uid : String
  org_id : Int
  source : String
  username : String
  role : String
deriving Repr, DecidableEq

/-- `resourceUserRead` (resource_user.go lines 88-127): one GET of
`/users`, then a linear scan for the record whose uid equals the stored
id; a match writes back only the role, no match clears the id. -/
def resourceUserRead (d : UserState)
    (remote : Call → Except WekaError String)
    (parseUsers : String → Option (List WekaGetUsersRecord)) :
    UserState × List Call × List Diagnostic :=
  let req : Call := ⟨Method.GET, "/users", none⟩
  match remote req with
  | Except.error e => (d, [req], [diagFromErr e])
  | Except.ok body =>
    match parseUsers body with
    | none => (d, [req], [diagUnmarshal])
    | some users =>
      match users.find? (fun b => b.uid == d.id) with
      | some b => ({ d with role := b.role }, [req], [])
      | none => ({ d with id := "" }, [req], [])

/-- Second half of `resourceUserUpdate`: the PUT to `users/\x7bid\x7d`.
The source builds the map `ud` of changed fields but then calls
`http.NewRequest` with a `nil` body, so `ud` is never serialized into the
request: the call is issued with body `none`. -/
def userFieldsPut (d : UserState) (ch : UserChangeSet)
    (remote : Call → Except WekaError String) (now : String)
    (trace : List Call) :
    UserState × List Call × List Diagnostic :=
  if ch.posix_uid || ch.posix_gid || ch.role then
    let ud := (if ch.role then [("role", JValue.str d.role)] else [])
      ++ (if ch.posix_uid then [("posix_uid", JValue.int d.posix_uid)] else [])
      ++ (if ch.posix_gid then [("posix_gid", JValue.int d.posix_gid)] else [])
    let req : Call := ⟨Method.PUT, "users/" ++ d.id, none⟩
    match remote req with
    | Except.error e => (d, trace ++ [req], [diagFromErr e])
    | Except.ok _ => ({ d with last_updated := now }, trace ++ [req], [])
  else
    ({ d with last_updated := now }, trace, [])

/-- `resourceUserUpdate` (resource_user.go lines 152-229): a username
change errors out before any call; a password change issues the
`/users/password` PUT; changed role or posix ids trigger the
`users/\x7bid\x7d` PUT; finally `last_updated` is stamped.  `oldPassword`
is the previous value returned by `d.GetChange`. -/
def resourceUserUpdate (d : UserState) (ch : UserChangeSet)
    (oldPassword : String) (org : String)
    (remote : Call → Except WekaError String) (now : String) :
    UserState × List Call × List Diagnostic :=
  if ch.username then
    (d, [], [⟨Severity.error, "cannot update username", ""⟩])
  else if ch.password then
    let pud := [("username", JValue.str d.username),
                ("old_password", JValue.str oldPassword),
                ("new_password", JValue.str d.password),
                ("org", JValue.str org)]
    let req : Call := ⟨Method.PUT, "/users/password", some pud⟩
    match remote req with
    | Except.error e => (d, [req], [diagFromErr e])
    | Except.ok _ => userFieldsPut d ch remote now [req]
  else
    userFieldsPut d ch remote now []

/-- C3 evidence: a user update that changes only the role issues the PUT
to `users/u1` with no body at all — the map of changed fields built by
the source is never serialized into the request. -/
theorem userUpdate_put_body_is_nil :
    resourceUserUpdate ⟨"u1", "alice", "pw", "S3", 0, 0, ""⟩
      ⟨false, false, true, false, false⟩ "" "org" (fun _ => Except.ok "") "t" =
      (⟨"u1", "alice", "pw", "S3", 0, 0, "t"⟩,
       [⟨Method.PUT, "users/u1", none⟩], []) := by
  decide

/-- C4: a username change on a user update, and a tiered or obs_name
change on a filesystem update, each return an error diagnostic with an
empty call trace: no remote call (password PUT, filesystem PUT) is ever
issued. -/
theorem immutable_field_short_circuit
    (d : UserState) (ch : UserChangeSet) (op org : String)
    (remote : Call → Except WekaError String) (now : String)
    (dF : FilesystemState) (chF : FilesystemChangeSet)
    (remoteF : Call → Except WekaError String)
    (parseF : String → Option WekaFilesystemData) (nowF : String) :
    (ch.username = true →
      resourceUserUpdate d ch op org remote now =
        (d, [], [⟨Severity.error, "cannot update username", ""⟩])) ∧
    (chF.tiered = true →
      resourceFilesystemUpdate dF chF remoteF parseF nowF =
        (dF, [],
         [⟨Severity.error, "cannot switch type of filesystem from tiered/non-tiered", ""⟩])) ∧
    (chF.tiered = false → chF.obs_name = true →
      resourceFilesystemUpdate dF chF remoteF parseF nowF =
        (dF, [], [⟨Severity.error, "Cannot currently change the OBS name", ""⟩])) := by
  refine ⟨?_, ?_, ?_⟩
  · intro h
    simp [resourceUserUpdate, h]
  · intro h
    simp [resourceFilesystemUpdate, h]
  · intro h1 h2
    simp [resourceFilesystemUpdate, h1, h2]

/-- Witness for C4: concrete updates with the immutable field changed,
pushed through `immutable_field_short_circuit`. -/
theorem immutable_field_short_circuit_witness :
    (resourceUserUpdate ⟨"u1", "bob", "pw", "S3", 0, 0, ""⟩
        ⟨true, false, false, false, false⟩ "" "org" (fun _ => Except.ok "") "t" =
      (⟨"u1", "bob", "pw", "S3", 0, 0, ""⟩, [],
       [⟨Severity.error, "cannot update username", ""⟩])) ∧
    (resourceFilesystemUpdate ⟨"f1", "fs", "g", 4, "", 2, false, false, false, true, ""⟩
        ⟨false, true, false, false, false, false⟩ (fun _ => Except.ok "")
        (fun _ => none) "t" =
      (⟨"f1", "fs", "g", 4, "", 2, false, false, false, true, ""⟩, [],
       [⟨Severity.error, "cannot switch type of filesystem from tiered/non-tiered", ""⟩])) ∧
    (resourceFilesystemUpdate ⟨"f1", "fs", "g", 4, "", 2, false, false, false, true, ""⟩
        ⟨false, false, true, false, false, false⟩ (fun _ => Except.ok "")
        (fun _ => none) "t" =
      (⟨"f1", "fs", "g", 4, "", 2, false, false, false, true, ""⟩, [],
       [⟨Severity.error, "Cannot currently change the OBS name", ""⟩])) := by
  refine ⟨?_, ?_, ?_⟩
  · exact (immutable_field_short_circuit ⟨"u1", "bob", "pw", "S3", 0, 0, ""⟩
      ⟨true, false, false, false, false⟩ "" "org" (fun _ => Except.ok "") "t"
      ⟨"f1", "fs", "g", 4, "", 2, false, false, false, true, ""⟩
      ⟨false, true, false, false, false, false⟩ (fun _ => Except.ok "")
      (fun _ => none) "t").1 rfl
  · exact (immutable_field_short_circuit ⟨"u1", "bob", "pw", "S3", 0, 0, ""⟩
      ⟨true, false, false, false, false⟩ "" "org" (fun _ => Except.ok "") "t"
      ⟨"f1", "fs", "g", 4, "", 2, false, false, false, true, ""⟩
      ⟨false, true, false, false, false, false⟩ (fun _ => Except.ok "")
      (fun _ => none) "t").2.1 rfl
  · exact (immutable_field_short_circuit ⟨"u1", "bob", "pw", "S3", 0, 0, ""⟩
      ⟨true, false, false, false, false⟩ "" "org" (fun _ => Except.ok "") "t"
      ⟨"f1", "fs", "g", 4, "", 2, false, false, false, true, ""⟩
      ⟨false, false, true, false, false, false⟩ (fun _ => Except.ok "")
      (fun _ => none) "t").2.2 rfl rfl

/-- C5 evidence: the collection maps the declared username "alice" to the
declared policy "p1", yet Read clears the identifier (NotFound), because
the source looks up the literal map key "username" instead of the
declared username. -/
theorem userPolicyRead_ignores_declared_username :
    resourceUserPolicyRead ⟨"1700000000", "alice", "p1", ""⟩
      (fun _ => Except.ok "body")
      (fun _ => some [("alice", "p1")]) =
      (⟨"", "alice", "p1", ""⟩, [⟨Method.GET, "/s3/userPolicies", none⟩], []) := by
  decide

/-- C6: filesystem capacities use the fixed factor 1 GB = 1000000000
bytes.  The create body serializes `total_capacity` as
`total_capacity_gb * 1000000000` (and, when tiered, `ssd_capacity` as
`ssd_capacity_gb * 1000000000`); deserializing a read response whose
total byte count is 4000000000 yields `total_capacity_gb = 4`. -/
theorem filesystem_capacity_gb_factor (d : FilesystemState)
    (remote : Call → Except WekaError String)
    (parseFs : String → Option WekaFilesystemData) (k : WekaFilesystemData) :
    (∃ l, (resourceFilesystemCreate d remote parseFs).2.1 =
        [⟨Method.POST, "fileSystems", some l⟩] ∧
      l.lookup "total_capacity" = some (JValue.int (d.total_capacity_gb * 1000000000)) ∧
      (d.tiered = true →
        l.lookup "ssd_capacity" = some (JValue.int (d.ssd_capacity_gb * 1000000000)))) ∧
    (k.obs_buckets = [] → k.available_total + k.used_total = 4000000000 →
      ((extractFilesystemJsonData (some k) d).1).total_capacity_gb = 4) := by
  constructor
  · refine ⟨(if d.tiered then
        [("name", JValue.str d.name),
         ("group_name", JValue.str d.group_name),
         ("total_capacity", JValue.int (d.total_capacity_gb * OurGb)),
         ("encrypted", JValue.bool d.encrypted),
         ("auth_required", JValue.bool d.auth_required),
         ("allow_no_kms", JValue.bool d.allow_no_kms)] ++
        [("obs_name", JValue.str d.obs_name),
         ("ssd_capacity", JValue.int (d.ssd_capacity_gb * OurGb))]
      else
        [("name", JValue.str d.name),
         ("group_name", JValue.str d.group_name),
         ("total_capacity", JValue.int (d.total_capacity_gb * OurGb)),
         ("encrypted", JValue.bool d.encrypted),
         ("auth_required", JValue.bool d.auth_required),
         ("allow_no_kms", JValue.bool d.allow_no_kms)]), ?_, ?_, ?_⟩
    · simp only [resourceFilesystemCreate]
      split <;> first
        | rfl
        | (rename_i body hbody
           cases hp : parseFs body <;> simp)
    · cases ht : d.tiered <;> simp [ht, List.lookup, OurGb]
    · intro ht
      simp [ht, List.lookup, OurGb]
  · intro hobs hsum
    simp only [extractFilesystemJsonData, hobs, List.length_nil, gt_iff_lt,
      Nat.lt_irrefl, if_false]
    simp [hsum, OurGb]
    decide

/-- Witness for C6: a concrete tiered filesystem with 4 GB total and 2 GB
SSD, and a concrete read response totalling 4000000000 bytes, pushed
through `filesystem_capacity_gb_factor`. -/
theorem filesystem_capacity_gb_factor_witness :
    (∃ l, (resourceFilesystemCreate ⟨"", "fs", "g", 4, "obs", 2, false, true, true, true, ""⟩
        (fun _ => Except.ok "") (fun _ => none)).2.1 =
        [⟨Method.POST, "fileSystems", some l⟩] ∧
      l.lookup "total_capacity" = some (JValue.int (4 * 1000000000)) ∧
      l.lookup "ssd_capacity" = some (JValue.int (2 * 1000000000))) ∧
    ((extractFilesystemJsonData
        (some ⟨"uid1", 0, 0, 4000000000, 0, false, false, "g", []⟩)
        ⟨"", "fs", "g", 0, "", 0, false, false, false, false, ""⟩).1).total_capacity_gb = 4 := by
  constructor
  · obtain ⟨l, h1, h2, h3⟩ :=
      (filesystem_capacity_gb_factor ⟨"", "fs", "g", 4, "obs", 2, false, true, true, true, ""⟩
        (fun _ => Except.ok "") (fun _ => none)
        ⟨"uid1", 0, 0, 4000000000, 0, false, false, "g", []⟩).1
    exact ⟨l, h1, h2, h3 rfl⟩
  · exact (filesystem_capacity_gb_factor ⟨"", "fs", "g", 0, "", 0, false, false, false, false, ""⟩
      (fun _ => Except.ok "") (fun _ => none)
      ⟨"uid1", 0, 0, 4000000000, 0, false, false, "g", []⟩).2 rfl rfl

/-- C7: bucket Read and user Read each issue exactly one GET of their
collection endpoint; when the parsed collection holds no record whose
identity (bucket name, user uid) equals the stored id, the id is cleared
(NotFound); when a matching record exists, the id is preserved. -/
theorem listScanRead_identifier (dB : BucketState)
    (remoteB : Call → Except WekaError String)
    (parseB : String → Option (List WekaS3BucketRecord))
    (dU : UserState)
    (remoteU : Call → Except WekaError String)
    (parseU : String → Option (List WekaGetUsersRecord)) :
    ((resourceS3BucketRead dB remoteB parseB).2.1 =
      [⟨Method.GET, "/s3/buckets", none⟩]) ∧
    (∀ body bs, remoteB ⟨Method.GET, "/s3/buckets", none⟩ = Except.ok body →
      parseB body = some bs →
      ((∀ b ∈ bs, b.name ≠ dB.id) →
        (resourceS3BucketRead dB remoteB parseB).1.id = "") ∧
      ((∃ b ∈ bs, b.name = dB.id) →
        (resourceS3BucketRead dB remoteB parseB).1.id = dB.id)) ∧
    ((resourceUserRead dU remoteU parseU).2.1 = [⟨Method.GET, "/users", none⟩]) ∧
    (∀ body us, remoteU ⟨Method.GET, "/users", none⟩ = Except.ok body →
      parseU body = some us →
      ((∀ u ∈ us, u.uid ≠ dU.id) →
        (resourceUserRead dU remoteU parseU).1.id = "") ∧
      ((∃ u ∈ us, u.uid = dU.id) →
        (resourceUserRead dU remoteU parseU).1.id = dU.id)) := by
  refine ⟨?_, ?_, ?_, ?_⟩
  · simp only [resourceS3BucketRead]
    split
    · rfl
    · rename_i body hbody
      cases hp : parseB body
      · simp
      · rename_i bs
        cases hf : bs.find? (fun b => b.name == dB.id) <;> simp [hf]
  · intro body bs hok hp
    constructor
    · intro hall
      have hf : bs.find? (fun b => b.name == dB.id) = none := by
        rw [List.find?_eq_none]
        intro b hb
        simpa using hall b hb
      simp [resourceS3BucketRead, hok, hp, hf]
    · intro hex
      have hf : (bs.find? (fun b => b.name == dB.id)).isSome := by
        rw [List.find?_isSome]
        obtain ⟨b, hb, hbn⟩ := hex
        exact ⟨b, hb, by simp [hbn]⟩
      cases hfv : bs.find? (fun b => b.name == dB.id)
      · rw [hfv] at hf
        simp at hf
      · simp [resourceS3BucketRead, hok, hp, hfv]
  · simp only [resourceUserRead]
    split
    · rfl
    · rename_i body hbody
      cases hp : parseU body
      · simp
      · rename_i us
        cases hf : us.find? (fun u => u.uid == dU.id) <;> simp [hf]
  · intro body us hok hp
    constructor
    · intro hall
      have hf : us.find? (fun u => u.uid == dU.id) = none := by
        rw [List.find?_eq_none]
        intro u hu
        simpa using hall u hu
      simp [resourceUserRead, hok, hp, hf]
    · intro hex
      have hf : (us.find? (fun u => u.uid == dU.id)).isSome := by
        rw [List.find?_isSome]
        obtain ⟨u, hu, hun⟩ := hex
        exact ⟨u, hu, by simp [hun]⟩
      cases hfv : us.find? (fun u => u.uid == dU.id)
      · rw [hfv] at hf
        simp at hf
      · simp [resourceUserRead, hok, hp, hfv]

/-- Witness for C7: concrete collections with and without a matching
record, pushed through `listScanRead_identifier`. -/
theorem listScanRead_identifier_witness :
    ((resourceS3BucketRead ⟨"b1", "b1", "none", "", "", "fs", "", false⟩
        (fun _ => Except.ok "body")
        (fun _ => some [⟨"other", 0, "", 0, ""⟩])).1.id = "") ∧
    ((resourceS3BucketRead ⟨"b1", "b1", "none", "", "", "fs", "", false⟩
        (fun _ => Except.ok "body")
        (fun _ => some [⟨"b1", 0, "", 0, ""⟩])).1.id = "b1") ∧
    ((resourceUserRead ⟨"u1", "alice", "pw", "S3", 0, 0, ""⟩
        (fun _ => Except.ok "body")
        (fun _ => some [⟨"u2", 0, "", "bob", "ReadOnly"⟩])).1.id = "") ∧
    ((resourceUserRead ⟨"u1", "alice", "pw", "S3", 0, 0, ""⟩
        (fun _ => Except.ok "body")
        (fun _ => some [⟨"u1", 0, "", "alice", "ReadOnly"⟩])).1.id = "u1") := by
  refine ⟨?_, ?_, ?_, ?_⟩
  · exact ((listScanRead_identifier ⟨"b1", "b1", "none", "", "", "fs", "", false⟩
      (fun _ => Except.ok "body") (fun _ => some [⟨"other", 0, "", 0, ""⟩])
      ⟨"u1", "alice", "pw", "S3", 0, 0, ""⟩ (fun _ => Except.ok "body")
      (fun _ => some [⟨"u2", 0, "", "bob", "ReadOnly"⟩])).2.1 "body"
      [⟨"other", 0, "", 0, ""⟩] rfl rfl).1 (by decide)
  · exact ((listScanRead_identifier ⟨"b1", "b1", "none", "", "", "fs", "", false⟩
      (fun _ => Except.ok "body") (fun _ => some [⟨"b1", 0, "", 0, ""⟩])
      ⟨"u1", "alice", "pw", "S3", 0, 0, ""⟩ (fun _ => Except.ok "body")
      (fun _ => some [⟨"u2", 0, "", "bob", "ReadOnly"⟩])).2.1 "body"
      [⟨"b1", 0, "", 0, ""⟩] rfl rfl).2
      ⟨⟨"b1", 0, "", 0, ""⟩, by decide, rfl⟩
  · exact ((listScanRead_identifier ⟨"b1", "b1", "none", "", "", "fs", "", false⟩
      (fun _ => Except.ok "body") (fun _ => some [⟨"other", 0, "", 0, ""⟩])
      ⟨"u1", "alice", "pw", "S3", 0, 0, ""⟩ (fun _ => Except.ok "body")
      (fun _ => some [⟨"u2", 0, "", "bob", "ReadOnly"⟩])).2.2.2 "body"
      [⟨"u2", 0, "", "bob", "ReadOnly"⟩] rfl rfl).1 (by decide)
  · exact ((listScanRead_identifier ⟨"b1", "b1", "none", "", "", "fs", "", false⟩
      (fun _ => Except.ok "body") (fun _ => some [⟨"other", 0, "", 0, ""⟩])
      ⟨"u1", "alice", "pw", "S3", 0, 0, ""⟩ (fun _ => Except.ok "body")
      (fun _ => some [⟨"u1", 0, "", "alice", "ReadOnly"⟩])).2.2.2 "body"
      [⟨"u1", 0, "", "alice", "ReadOnly"⟩] rfl rfl).2
      ⟨⟨"u1", 0, "", "alice", "ReadOnly"⟩, by decide, rfl⟩

/-- C8: session construction needs all four of username, password, org
and endpoint non-empty — any empty one yields the configuration error
with no login POST; with all four present (and a well-formed endpoint)
the credentials are POSTed, a non-200 reply or a token type other than
"bearer" (case-insensitively) is an error, and otherwise the client
holding the auth response is returned. -/
theorem providerConfigure_classification (username password org endpoint : String)
    (parseRequestURI : String → Option String)
    (post : Except String LoginReply)
    (parseAuth : String → Option WekaAuthData) :
    ((username = "" ∨ password = "" ∨ org = "" ∨ endpoint = "") →
      providerConfigure username password org endpoint parseRequestURI post parseAuth =
        ⟨none, [⟨Severity.error, "Unable to create Weka client.",
                 "Missing required parameters to create and authenticate to Weka."⟩],
         false⟩) ∧
    (username ≠ "" → password ≠ "" → org ≠ "" → endpoint ≠ "" →
      ∀ u resp, parseRequestURI endpoint = some u → post = Except.ok resp →
        ((resp.statusCode ≠ 200 →
          providerConfigure username password org endpoint parseRequestURI post parseAuth =
            ⟨none, [⟨Severity.error,
                     "non-200 response from Weka API path " ++ u ++ "/login",
                     resp.body⟩], true⟩) ∧
         (∀ wr, resp.statusCode = 200 → parseAuth resp.body = some wr →
           (toLowerModel wr.token_type ≠ "bearer" →
             providerConfigure username password org endpoint parseRequestURI post parseAuth =
               ⟨none, [⟨Severity.error,
                        "Unknown token type from Weka API (" ++ wr.token_type
                          ++ ") path " ++ u ++ "/login",
                        resp.body⟩], true⟩) ∧
           (toLowerModel wr.token_type = "bearer" →
             providerConfigure username password org endpoint parseRequestURI post parseAuth =
               ⟨some ⟨u, org, wr⟩, [], true⟩)))) := by
  constructor
  · intro h
    rcases h with h | h | h | h <;> simp [providerConfigure, h]
  · intro h1 h2 h3 h4 u resp hu hpost
    constructor
    · intro hst
      simp [providerConfigure, h1, h2, h3, h4, hu, hpost, hst]
    · intro wr hst hwr
      constructor
      · intro htok
        simp [providerConfigure, h1, h2, h3, h4, hu, hpost, hst, hwr, htok]
      · intro htok
        simp [providerConfigure, h1, h2, h3, h4, hu, hpost, hst, hwr, htok]

/-- Witness for C8: a missing username, a 500 reply, a non-bearer token
type, and a successful login, each pushed through
`providerConfigure_classification` at concrete inputs. -/
theorem providerConfigure_classification_witness :
    (providerConfigure "" "pw" "org" "http://h" (fun e => some e)
        (Except.ok ⟨200, "b"⟩) (fun _ => some ⟨"tok", "Bearer", 0, "r"⟩) =
      ⟨none, [⟨Severity.error, "Unable to create Weka client.",
               "Missing required parameters to create and authenticate to Weka."⟩],
       false⟩) ∧
    (providerConfigure "u" "pw" "org" "http://h" (fun e => some e)
        (Except.ok ⟨500, "b"⟩) (fun _ => some ⟨"tok", "Bearer", 0, "r"⟩) =
      ⟨none, [⟨Severity.error, "non-200 response from Weka API path http://h/login",
               "b"⟩], true⟩) ∧
    (providerConfigure "u" "pw" "org" "http://h" (fun e => some e)
        (Except.ok ⟨200, "b"⟩) (fun _ => some ⟨"tok", "mac", 0, "r"⟩) =
      ⟨none, [⟨Severity.error, "Unknown token type from Weka API (mac) path http://h/login",
               "b"⟩], true⟩) ∧
    (providerConfigure "u" "pw" "org" "http://h" (fun e => some e)
        (Except.ok ⟨200, "b"⟩) (fun _ => some ⟨"tok", "Bearer", 0, "r"⟩) =
      ⟨some ⟨"http://h", "org", ⟨"tok", "Bearer", 0, "r"⟩⟩, [], true⟩) := by
  refine ⟨?_, ?_, ?_, ?_⟩
  · exact (providerConfigure_classification "" "pw" "org" "http://h" (fun e => some e)
      (Except.ok ⟨200, "b"⟩) (fun _ => some ⟨"tok", "Bearer", 0, "r"⟩)).1
      (Or.inl rfl)
  · exact ((providerConfigure_classification "u" "pw" "org" "http://h" (fun e => some e)
      (Except.ok ⟨500, "b"⟩) (fun _ => some ⟨"tok", "Bearer", 0, "r"⟩)).2
      (by decide) (by decide) (by decide) (by decide)
      "http://h" ⟨500, "b"⟩ rfl rfl).1 (by decide)
  · exact (((providerConfigure_classification "u" "pw" "org" "http://h" (fun e => some e)
      (Except.ok ⟨200, "b"⟩) (fun _ => some ⟨"tok", "mac", 0, "r"⟩)).2
      (by decide) (by decide) (by decide) (by decide)
      "http://h" ⟨200, "b"⟩ rfl rfl).2 ⟨"tok", "mac", 0, "r"⟩ rfl rfl).1 (by decide)
  · exact (((providerConfigure_classification "u" "pw" "org" "http://h" (fun e => some e)
      (Except.ok ⟨200, "b"⟩) (fun _ => some ⟨"tok", "Bearer", 0, "r"⟩)).2
      (by decide) (by decide) (by decide) (by decide)
      "http://h" ⟨200, "b"⟩ rfl rfl).2 ⟨"tok", "Bearer", 0, "r"⟩ rfl rfl).2 (by decide)

/-- C9: when user Read finds the stored id in the collection it writes
only the role; username, password, posix ids, last_updated and the id
itself keep their previous values.  When bucket Read finds the stored
bucket name it changes nothing at all. -/
theorem read_found_frame (dU : UserState)
    (remoteU : Call → Except WekaError String)
    (parseU : String → Option (List WekaGetUsersRecord))
    (dB : BucketState)
    (remoteB : Call → Except WekaError String)
    (parseB : String → Option (List WekaS3BucketRecord)) :
    (∀ body us b, remoteU ⟨Method.GET, "/users", none⟩ = Except.ok body →
      parseU body = some us →
      us.find? (fun r => r.uid == dU.id) = some b →
      resourceUserRead dU remoteU parseU =
        ({ dU with role := b.role }, [⟨Method.GET, "/users", none⟩], []) ∧
      (resourceUserRead dU remoteU parseU).1.username = dU.username ∧
      (resourceUserRead dU remoteU parseU).1.password = dU.password ∧
      (resourceUserRead dU remoteU parseU).1.posix_uid = dU.posix_uid ∧
      (resourceUserRead dU remoteU parseU).1.posix_gid = dU.posix_gid ∧
      (resourceUserRead dU remoteU parseU).1.last_updated = dU.last_updated ∧
      (resourceUserRead dU remoteU parseU).1.id = dU.id ∧
      (resourceUserRead dU remoteU parseU).1.role = b.role) ∧
    (∀ body bs b, remoteB ⟨Method.GET, "/s3/buckets", none⟩ = Except.ok body →
      parseB body = some bs →
      bs.find? (fun r => r.name == dB.id) = some b →
      resourceS3BucketRead dB remoteB parseB =
        (dB, [⟨Method.GET, "/s3/buckets", none⟩], [])) := by
  constructor
  · intro body us b hok hp hf
    have h : resourceUserRead dU remoteU parseU =
        ({ dU with role := b.role }, [⟨Method.GET, "/users", none⟩], []) := by
      simp [resourceUserRead, hok, hp, hf]
    refine ⟨h, ?_⟩
    rw [h]
    exact ⟨rfl, rfl, rfl, rfl, rfl, rfl, rfl⟩
  · intro body bs b hok hp hf
    simp [resourceS3BucketRead, hok, hp, hf]

/-- Witness for C9: concrete collections containing the stored ids,
pushed through `read_found_frame`. -/
theorem read_found_frame_witness :
    (resourceUserRead ⟨"u1", "alice", "pw", "S3", 7, 8, "x"⟩
        (fun _ => Except.ok "body")
        (fun _ => some [⟨"u1", 0, "", "alice", "ReadOnly"⟩]) =
      (⟨"u1", "alice", "pw", "ReadOnly", 7, 8, "x"⟩,
       [⟨Method.GET, "/users", none⟩], [])) ∧
    (resourceS3BucketRead ⟨"b1", "b1", "none", "1GB", "", "fs", "y", false⟩
        (fun _ => Except.ok "body")
        (fun _ => some [⟨"b1", 0, "", 0, ""⟩]) =
      (⟨"b1", "b1", "none", "1GB", "", "fs", "y", false⟩,
       [⟨Method.GET, "/s3/buckets", none⟩], [])) := by
  constructor
  · exact ((read_found_frame ⟨"u1", "alice", "pw", "S3", 7, 8, "x"⟩
      (fun _ => Except.ok "body")
      (fun _ => some [⟨"u1", 0, "", "alice", "ReadOnly"⟩])
      ⟨"b1", "b1", "none", "1GB", "", "fs", "y", false⟩
      (fun _ => Except.ok "body")
      (fun _ => some [⟨"b1", 0, "", 0, ""⟩])).1 "body"
      [⟨"u1", 0, "", "alice", "ReadOnly"⟩] ⟨"u1", 0, "", "alice", "ReadOnly"⟩
      rfl rfl (by decide)).1
  · exact (read_found_frame ⟨"u1", "alice", "pw", "S3", 7, 8, "x"⟩
      (fun _ => Except.ok "body")
      (fun _ => some [⟨"u1", 0, "", "alice", "ReadOnly"⟩])
      ⟨"b1", "b1", "none", "1GB", "", "fs", "y", false⟩
      (fun _ => Except.ok "body")
      (fun _ => some [⟨"b1", 0, "", 0, ""⟩])).2 "body"
      [⟨"b1", 0, "", 0, ""⟩] ⟨"b1", 0, "", 0, ""⟩ rfl rfl (by decide)

/-- C10: on a tiered filesystem update with `ssd_capacity_gb` changed,
the serialized `ssd_capacity` equals `total_capacity_gb * 1000000000`,
and the issued call trace does not depend on the declared
`ssd_capacity_gb` value at all. -/
theorem filesystemUpdate_ssd_from_total (d : FilesystemState)
    (ch : FilesystemChangeSet) (remote : Call → Except WekaError String)
    (parseFs : String → Option WekaFilesystemData) (now : String) (v : Int)
    (ht : d.tiered = true) (hs : ch.ssd_capacity_gb = true)
    (h1 : ch.tiered = false) (h2 : ch.obs_name = false) :
    (∃ l, (resourceFilesystemUpdate d ch remote parseFs now).2.1 =

        [⟨Method.PUT, "fileSystems/" ++ d.id, some l⟩] ∧
      l.lookup "ssd_capacity" = some (JValue.int (d.total_capacity_gb * 1000000000))) ∧
    (resourceFilesystemUpdate { d with ssd_capacity_gb := v } ch remote parseFs now).2.1 =
      (resourceFilesystemUpdate d ch remote parseFs now).2.1 := by
  have hb : (d.tiered && ch.ssd_capacity_gb) = true := by
    simp [ht, hs]
  constructor
  · refine ⟨(if ch.name then [("new_name", JValue.str d.name)] else [])
      ++ (if ch.total_capacity_gb then
            [("total_capacity", JValue.int (d.total_capacity_gb * OurGb))] else [])
      ++ (if ch.auth_required then
            [("auth_required", JValue.bool d.auth_required)] else [])
      ++ [("ssd_capacity", JValue.int (d.total_capacity_gb * OurGb))], ?_, ?_⟩
    · simp only [resourceFilesystemUpdate, h1, h2, hb, Bool.false_eq_true,
        if_false, if_true]
      split
      · rfl
      · rfl
    · cases hn : ch.name <;> cases hc : ch.total_capacity_gb <;>
        cases ha : ch.auth_required <;> simp [List.lookup, OurGb]
  · simp only [resourceFilesystemUpdate, h1, h2, Bool.false_eq_true, if_false]
    split <;> rfl

/-- Witness for C10: a concrete tiered filesystem declaring 4 GB total
and 9 GB SSD serializes `ssd_capacity` as 4000000000, and changing the
declared SSD capacity to 77 leaves the issued call unchanged, via
`filesystemUpdate_ssd_from_total`. -/
theorem filesystemUpdate_ssd_from_total_witness :
    (∃ l, (resourceFilesystemUpdate ⟨"f1", "fs", "g", 4, "obs", 9, false, false, false, true, ""⟩
        ⟨false, false, false, false, false, true⟩ (fun _ => Except.ok "")
        (fun _ => none) "t").2.1 =
        [⟨Method.PUT, "fileSystems/f1", some l⟩] ∧
      l.lookup "ssd_capacity" = some (JValue.int (4 * 1000000000))) ∧
    (resourceFilesystemUpdate ⟨"f1", "fs", "g", 4, "obs", 77, false, false, false, true, ""⟩
        ⟨false, false, false, false, false, true⟩ (fun _ => Except.ok "")
        (fun _ => none) "t").2.1 =
      (resourceFilesystemUpdate ⟨"f1", "fs", "g", 4, "obs", 9, false, false, false, true, ""⟩
        ⟨false, false, false, false, false, true⟩ (fun _ => Except.ok "")
        (fun _ => none) "t").2.1 :=
  filesystemUpdate_ssd_from_total ⟨"f1", "fs", "g", 4, "obs", 9, false, false, false, true, ""⟩
    ⟨false, false, false, false, false, true⟩ (fun _ => Except.ok "")
    (fun _ => none) "t" 77 rfl rfl rfl rfl

end Weka
